import Mathlib

/-!
Verification of the video-moderation core of the JustDialHackathon repository.

The development shallowly embeds the decision-aggregation engine
(`pyapp/moderation_engine.py`) and the frame-sampling analysis pipeline
(`pyapp/video_analyzer.py`).  Python floats are modelled as exact rationals
(`ℚ`), Python strings as Lean `String`, Python dicts with optional keys as
structures whose field defaults are the `dict.get` defaults used by the
readers, and a missing-`error`-key probe as an `Option String` field.

The OpenCV / moviepy environment is modelled by `VideoSource` / `Frame`:
per-frame pixel data is carried explicitly (HSV triples) so that the
skin-band and red-band fractions are computed exactly as in the source,
while purely geometric library outputs (contour counts, Haar-cascade face
boxes, Laplacian variance, grayscale mean) are carried as frame features,
since they are produced by OpenCV, not by repository code.
-/

namespace PyModeration

/-! ## Python string primitives

`pyLower` models `str.lower`, `beginsWith`/`hasSubstr` model the substring
test performed by Python's `in` operator, `pyJoin` models `sep.join(...)`,
and `pyStrip` models `str.strip()`. -/

/-- `str.lower()` (character-wise lowering, as used on the ASCII data here). -/
def pyLower (s : String) : String := ⟨s.data.map Char.toLower⟩

/-- Whether `needle` occurs at the start of `hay`. -/
def beginsWith : List Char → List Char → Bool
  | [], _ => true
  | _ :: _, [] => false
  | a :: as, b :: bs => a = b && beginsWith as bs

/-- Whether `needle` occurs contiguously anywhere in `hay` (Python `needle in hay`). -/
def hasSubstr (needle : List Char) : List Char → Bool
  | [] => beginsWith needle []
  | c :: rest => beginsWith needle (c :: rest) || hasSubstr needle rest

/-- Python `needle in hay` on strings. -/
def strContains (hay needle : String) : Bool := hasSubstr needle.data hay.data

/-- Python `sep.join(xs)`. -/
def pyJoin (sep : String) : List String → String
  | [] => ""
  | [s] => s
  | s :: rest => s ++ sep ++ pyJoin sep rest

/-- Python whitespace test used by `str.strip()`. -/
def pyIsSpace (c : Char) : Bool := c = ' ' || c = '\t' || c = '\n' || c = '\r'

/-- Python `str.strip()`. -/
def pyStrip (s : String) : String :=
  ⟨(((s.data.dropWhile pyIsSpace).reverse).dropWhile pyIsSpace).reverse⟩

/-- Round `100 * q` to the nearest integer, halves up: a computable stand-in
for the rounding performed by Python `%.2f` float formatting.  The exact
digits are never load-bearing for any claim (reason strings are only ever
inspected through substring containment of their fixed text). -/
def roundCenti (q : ℚ) : ℤ := Int.fdiv (200 * q.num + (q.den : ℤ)) (2 * (q.den : ℤ))

/-- Round `10 * q` to the nearest integer, halves up (stand-in for `%.1f`). -/
def roundDeci (q : ℚ) : ℤ := Int.fdiv (20 * q.num + (q.den : ℤ)) (2 * (q.den : ℤ))

/-- Two-decimal rendering of a score (Python `f"{x:.2f}"`). -/
def fmt2 (q : ℚ) : String :=
  let m := roundCenti q
  let n := m.natAbs
  (if m < 0 then "-" else "") ++ toString (n / 100) ++ "." ++
    (if n % 100 < 10 then "0" else "") ++ toString (n % 100)

/-- One-decimal rendering of a timestamp (Python `f"{x:.1f}"`). -/
def fmt1 (q : ℚ) : String :=
  let m := roundDeci q
  let n := m.natAbs
  (if m < 0 then "-" else "") ++ toString (n / 10) ++ "." ++ toString (n % 10)

/-! ## Data model of the analysis dictionaries

One structure per analysis dict produced by `VideoAnalyzer` and consumed by
`ModerationEngine._check_*`.  Field defaults are exactly the `dict.get`
defaults the aggregator uses; an `error : Option String` field models the
presence/absence of the `"error"` key. -/

/-- One timestamped nudity detection (`{"timestamp": ..., "score": ..., "frame_number": ...}`). -/
structure Detection where
  timestamp : ℚ
  score : ℚ
  frame_number : ℕ
deriving DecidableEq

/-- Result dict of `VideoAnalyzer._analyze_nudity`. -/
structure NudityAnalysis where
  error : Option String := none
  overall_score : ℚ := 0
  category : String := "none"
  detections : List Detection := []
  frames_analyzed : ℕ := 0
  sensitivity_level : String := "moderate"
deriving DecidableEq

/-- Result dict of `VideoAnalyzer._analyze_audio_copyright`. -/
structure AudioAnalysis where
  score : ℚ := 0
  reason : Option String := none
  error : Option String := none
  duration : ℚ := 0
  has_music : Bool := false
deriving DecidableEq

/-- Result dict of `VideoAnalyzer._analyze_visual_copyright`. -/
structure VisualAnalysis where
  score : ℚ := 0
  error : Option String := none
  logo_detections : ℕ := 0
  frames_analyzed : ℕ := 0
deriving DecidableEq

/-- Result dict of `VideoAnalyzer._analyze_copyright`. -/
structure CopyrightAnalysis where
  error : Option String := none
  overall_score : ℚ := 0
  audio_analysis : AudioAnalysis := {}
  visual_analysis : VisualAnalysis := {}
  potential_sources : List String := []
  confidence : ℚ := 0
deriving DecidableEq

/-- Result dict of `VideoAnalyzer._analyze_fraud`. -/
structure FraudAnalysis where
  error : Option String := none
  score : ℚ := 0
  indicators : List String := []
  extracted_text : String := ""
  fraud_types : List String := []
deriving DecidableEq

/-- One blur region emitted by `VideoAnalyzer._analyze_blur_requirements`. -/
structure BlurRegion where
  timestamp : ℚ
  reason : String
  severity : String
  score : ℚ := 0
deriving DecidableEq

/-- Result dict of `VideoAnalyzer._analyze_blur_requirements`. -/
structure BlurAnalysis where
  error : Option String := none
  requires_blur : Bool := false
  blur_regions : List BlurRegion := []
  total_regions : ℕ := 0
deriving DecidableEq

/-- Result dict of `VideoAnalyzer._analyze_technical_quality`. -/
structure TechnicalAnalysis where
  error : Option String := none
  blur_score : ℚ := 0
  brightness_score : ℚ := 0
  quality_rating : String := "good"
  is_blurry : Bool := false
  is_too_dark : Bool := false
  is_too_bright : Bool := false
deriving DecidableEq

/-- The per-extractor results dict assembled by `VideoAnalyzer.analyze_video`
(the `file_info` entry, pure file metadata never read by the aggregator, is
omitted). -/
structure Analysis where
  nudity_analysis : NudityAnalysis := {}
  copyright_analysis : CopyrightAnalysis := {}
  fraud_analysis : FraudAnalysis := {}
  blur_analysis : BlurAnalysis := {}
  technical_analysis : TechnicalAnalysis := {}
deriving DecidableEq

/-- The moderation configuration dict.  Field defaults are the `config.get`
defaults used by the `_check_*` readers.  (The `auto_approve_threshold` /
`auto_reject_threshold` keys of the default config are never read by the
engine and are omitted.) -/
structure ModerationConfig where
  nudity_sensitivity : String := "moderate"
  fraud_sensitivity : String := "moderate"
  copyright_threshold : ℚ := 60
  reject_poor_quality : Bool := false
  blur_faces : Bool := true
  blur_violence : Bool := true
deriving DecidableEq

/-- `ModerationEngine._get_default_moderation_config`. -/
def default_moderation_config : ModerationConfig :=
  { nudity_sensitivity := "moderate"
    copyright_threshold := 60
    fraud_sensitivity := "strict"
    reject_poor_quality := false
    blur_faces := true
    blur_violence := true }

/-- Result dict of a `ModerationEngine._check_*_violation` call.  Keys that a
given check does not emit keep their defaults (in Python they are simply
absent from the dict and never read). -/
structure CheckResult where
  violation : Bool := false
  vtype : String := ""
  reason : String := ""
  score : ℚ := 0
  severity_score : ℚ := 0
  category : String := ""
  timestamps : List ℚ := []
  potential_sources : List String := []
  audio_score : ℚ := 0
  visual_score : ℚ := 0
  indicators : List String := []
  fraud_types : List String := []
  quality_rating : String := ""
  issues : List String := []
deriving DecidableEq

instance : Inhabited CheckResult := ⟨{}⟩

/-- The decision dict returned by `ModerationEngine._make_moderation_decision`
(`processing_time`, a wall-clock measurement, is not modelled). -/
structure Decision where
  decision : String
  confidence : ℚ
  reasoning : String
  violations : List CheckResult
  overall_risk_score : ℚ
deriving DecidableEq

/-! ## The decision aggregator (`moderation_engine.py`) -/

/-- The sensitivity→threshold table defined (identically, inline) in both
`_check_nudity_violation` and `_check_fraud_violation`; the `.get(_, 0.6)`
fallback applies to unrecognized sensitivity strings. -/
def sensitivityThresholds (sensitivity : String) : ℚ :=
  if sensitivity = "lenient" then 0.8
  else if sensitivity = "moderate" then 0.6
  else if sensitivity = "strict" then 0.4
  else 0.6

/-- `ModerationEngine._check_nudity_violation`. -/
def check_nudity_violation (a : NudityAnalysis) (config : ModerationConfig) : CheckResult :=
  if a.error.isSome then { violation := false, reason := "Nudity analysis failed" }
  else
    let score := a.overall_score
    let category := a.category
    let threshold := sensitivityThresholds config.nudity_sensitivity
    if score ≥ threshold then
      let detections := a.detections
      let timestamps := (detections.take 3).map (fun d => fmt1 d.timestamp ++ "s")
      let reason := "Nudity detected (score: " ++ fmt2 score ++ ", category: " ++ category ++ ")"
      let reason := if timestamps = [] then reason
        else reason ++ " at timestamps: " ++ pyJoin ", " timestamps
      { violation := true
        vtype := "nudity"
        reason := reason
        score := score
        category := category
        severity_score := min (score * 1.5) 1
        timestamps := detections.map Detection.timestamp }
    else { violation := false }

/-- `ModerationEngine._check_copyright_violation`. -/
def check_copyright_violation (a : CopyrightAnalysis) (config : ModerationConfig) : CheckResult :=
  if a.error.isSome then { violation := false, reason := "Copyright analysis failed" }
  else
    let score := a.overall_score
    let threshold := config.copyright_threshold / 100
    if score ≥ threshold then
      let potential_sources := a.potential_sources
      let audio_score := a.audio_analysis.score
      let visual_score := a.visual_analysis.score
      let reason := "Copyright infringement detected (score: " ++ fmt2 score ++ ")"
      let reason := if audio_score > visual_score then
          reason ++ " - primarily audio content (score: " ++ fmt2 audio_score ++ ")"
        else reason ++ " - primarily visual content (score: " ++ fmt2 visual_score ++ ")"
      let reason := if potential_sources = [] then reason
        else reason ++ ". Potential sources: " ++ pyJoin ", " (potential_sources.take 2)
      { violation := true
        vtype := "copyright"
        reason := reason
        score := score
        severity_score := score
        potential_sources := potential_sources
        audio_score := audio_score
        visual_score := visual_score }
    else { violation := false }

/-- `ModerationEngine._check_fraud_violation`. -/
def check_fraud_violation (a : FraudAnalysis) (config : ModerationConfig) : CheckResult :=
  if a.error.isSome then { violation := false, reason := "Fraud analysis failed" }
  else
    let score := a.score
    let threshold := sensitivityThresholds config.fraud_sensitivity
    if score ≥ threshold then
      let indicators := a.indicators
      let fraud_types := a.fraud_types
      let reason := "Fraudulent content detected (score: " ++ fmt2 score ++ ")"
      let reason := if fraud_types = [] then reason
        else reason ++ " - types: " ++ pyJoin ", " fraud_types
      let reason := if indicators = [] then reason
        else reason ++ ". Indicators: " ++ pyJoin ", " (indicators.take 3)
      { violation := true
        vtype := "fraud"
        reason := reason
        score := score
        severity_score := score * 1.2
        indicators := indicators
        fraud_types := fraud_types }
    else { violation := false }

/-- The `violations` string list accumulated by `_check_technical_violations`
(each flag appends its message in source order; the quality clause requires
`reject_poor_quality`). -/
def technical_issues (a : TechnicalAnalysis) (config : ModerationConfig) : List String :=
  (if a.is_blurry then ["video is too blurry"] else []) ++
  (if a.is_too_dark then ["video is too dark"] else []) ++
  (if a.is_too_bright then ["video is overexposed"] else []) ++
  (if a.quality_rating = "poor" ∧ config.reject_poor_quality then
    ["poor technical quality"] else [])

/-- `ModerationEngine._check_technical_violations`. -/
def check_technical_violations (a : TechnicalAnalysis) (config : ModerationConfig) : CheckResult :=
  if a.error.isSome then { violation := false, reason := "Technical analysis failed" }
  else if technical_issues a config ≠ [] then
    { violation := true
      vtype := "technical"
      reason := "Technical quality issues: " ++ pyJoin ", " (technical_issues a config)
      severity_score := 0.3
      quality_rating := a.quality_rating
      issues := technical_issues a config }
  else { violation := false }

/-- `ModerationEngine._calculate_confidence`. -/
def calculate_confidence (risk_score : ℚ) (violations : List CheckResult) : ℚ :=
  if violations = [] then min (0.9 + (1 - risk_score) * 0.1) 1
  else
    let base_confidence : ℚ := 0.7
    let severity_bonus := min (risk_score * 0.2) 0.2
    let violation_bonus := min ((violations.length : ℚ) * 0.05) 0.1
    min (base_confidence + severity_bonus + violation_bonus) 1

/-- The violations list accumulated by `_make_moderation_decision` (the four
checks run in source order; a check's result is appended when its
`violation` flag is set). -/
def decision_violations (analysis : Analysis) (config : ModerationConfig) : List CheckResult :=
  (if (check_nudity_violation analysis.nudity_analysis config).violation then
      [check_nudity_violation analysis.nudity_analysis config] else []) ++
  (if (check_copyright_violation analysis.copyright_analysis config).violation then
      [check_copyright_violation analysis.copyright_analysis config] else []) ++
  (if (check_fraud_violation analysis.fraud_analysis config).violation then
      [check_fraud_violation analysis.fraud_analysis config] else []) ++
  (if (check_technical_violations analysis.technical_analysis config).violation then
      [check_technical_violations analysis.technical_analysis config] else [])

/-- `ModerationEngine._make_moderation_decision`. -/
def make_moderation_decision (analysis : Analysis) (config : ModerationConfig) : Decision :=
  let violations := decision_violations analysis config
  let reasoning_parts := violations.map CheckResult.reason
  let overall_risk_score := (violations.map CheckResult.severity_score).sum
  let decision := if violations = [] then "approved" else "rejected"
  { decision := decision
    confidence := calculate_confidence overall_risk_score violations
    reasoning := if violations = [] then
        "Video approved - all content checks passed within acceptable thresholds"
      else "Video rejected due to: " ++ pyJoin "; " reasoning_parts
    violations := violations
    overall_risk_score := overall_risk_score }

/-! ## Environment model of the video source (OpenCV / moviepy)

`VideoSource` models one video file.  `opened = false` models a source that
cannot be opened: per documented OpenCV behaviour, `cv2.VideoCapture` then
does not raise — `cap.get(CAP_PROP_FRAME_COUNT)` returns `0` and
`cap.read()` returns `ret = False` — while moviepy's `VideoFileClip`
raises, which the repository code catches per sub-analysis.

A `Frame` carries its HSV pixel data explicitly (so the skin-band and
red-band fractions are computed exactly as in the source) together with the
outputs of the purely geometric OpenCV primitives the source feeds into its
formulas: `largeSkinRegions` abstracts the count of `cv2.findContours`
skin-mask contours of area > 1000, `logoCandidates` the count of Canny-edge
contours of logo-like size/aspect, `faces` the Haar-cascade face boxes,
`sharpness` the Laplacian variance, and `brightness` the grayscale mean. -/

/-- One HSV pixel (uint8 channels as produced by `cv2.cvtColor(..., COLOR_BGR2HSV)`). -/
structure HSV where
  h : ℕ
  s : ℕ
  v : ℕ
deriving DecidableEq

/-- A face bounding box returned by the Haar cascade. -/
structure FaceBox where
  x : ℕ
  y : ℕ
  w : ℕ
  ht : ℕ
deriving DecidableEq

/-- One decoded video frame (see the section comment for which fields carry
raw data and which abstract OpenCV primitives). -/
structure Frame where
  pixels : List HSV
  largeSkinRegions : ℕ := 0
  logoCandidates : ℕ := 0
  faces : List FaceBox := []
  sharpness : ℚ := 0
  brightness : ℚ := 0
deriving DecidableEq

/-- The mono audio samples as summarized features: `_detect_music_patterns`
computes its score from the RMS energy and a zero-crossing-rate proxy of the
numpy sample array; the array itself is abstracted to those two features
plus its length (used only for the reported duration). -/
structure AudioTrack where
  rmsEnergy : ℚ
  zeroCrossingRate : ℚ
  sampleCount : ℕ := 0
deriving DecidableEq

/-- A video file as seen by the pipeline. -/
structure VideoSource where
  opened : Bool
  frames : List Frame := []
  fps : ℚ := 0
  audio : Option AudioTrack := none
  filename : String := ""
deriving DecidableEq

/-- `cap.get(cv2.CAP_PROP_FRAME_COUNT)` (0 for an unopened capture). -/
def capFrameCount (src : VideoSource) : ℕ :=
  if src.opened then src.frames.length else 0

/-- `cap.get(cv2.CAP_PROP_FPS)` (0 for an unopened capture). -/
def capFps (src : VideoSource) : ℚ :=
  if src.opened then src.fps else 0

/-- `cap.set(CAP_PROP_POS_FRAMES, n)` followed by `cap.read()`:
`none` models `ret = False`. -/
def capRead (src : VideoSource) (n : ℕ) : Option Frame :=
  if src.opened then src.frames[n]? else none

/-- Python `range(0, total, step)` for `step ≥ 1`. -/
def pyRange (total step : ℕ) : List ℕ :=
  (List.range ((total + step - 1) / step)).map (· * step)

/-! ## The signal extractors (`video_analyzer.py`) -/

/-- Membership in the skin-tone band: `cv2.inRange(hsv, [0,20,70], [20,255,255])`
(inclusive channel bounds). -/
def isSkinPixel (p : HSV) : Bool :=
  p.h ≤ 20 && 20 ≤ p.s && p.s ≤ 255 && 70 ≤ p.v && p.v ≤ 255

/-- The fraction of skin-band pixels of a frame
(`skin_pixels / total_pixels` in `_detect_skin_content`). -/
def skin_percentage (f : Frame) : ℚ :=
  (f.pixels.countP isSkinPixel : ℚ) / (f.pixels.length : ℚ)

/-- `VideoAnalyzer._detect_skin_content`. -/
def detect_skin_content (f : Frame) : ℚ :=
  let base_score := min (skin_percentage f * 2) 1
  let region_bonus := min ((f.largeSkinRegions : ℚ) * 0.1) 0.3
  min (base_score + region_bonus) 1

/-- `VideoAnalyzer._categorize_nudity`. -/
def categorize_nudity (score : ℚ) : String :=
  if score < 0.3 then "none"
  else if score < 0.5 then "suggestive"
  else if score < 0.7 then "partial"
  else "explicit"

/-- The frame indices sampled by `_analyze_nudity`
(`range(0, total_frames, max(1, total_frames // 30))`). -/
def nudityIndices (src : VideoSource) : List ℕ :=
  pyRange (capFrameCount src) (max 1 (capFrameCount src / 30))

/-- The successfully decoded sampled frames of `_analyze_nudity`, paired with
their frame indices (`if not ret: continue`). -/
def nuditySampled (src : VideoSource) : List (ℕ × Frame) :=
  (nudityIndices src).filterMap (fun n => (capRead src n).map (fun f => (n, f)))

/-- `VideoAnalyzer._analyze_nudity`.  In the model nothing in the `try` body
raises (OpenCV calls do not raise on unreadable sources), so the `except`
branch producing an `error` dict is unreachable and `error` is `none`. -/
def analyze_nudity (src : VideoSource) (config : ModerationConfig) : NudityAnalysis :=
  let sampled := nuditySampled src
  let detections := (sampled.filter (fun nf => detect_skin_content nf.2 > 0.3)).map
    (fun nf => { timestamp := (nf.1 : ℚ) / capFps src
                 score := detect_skin_content nf.2
                 frame_number := nf.1 : Detection })
  let max_nudity_score := sampled.foldl (fun m nf => max m (detect_skin_content nf.2)) 0
  { error := none
    overall_score := max_nudity_score
    category := categorize_nudity max_nudity_score
    detections := detections
    frames_analyzed := (nudityIndices src).length
    sensitivity_level := config.nudity_sensitivity }

/-- `VideoAnalyzer._detect_music_patterns` (the RMS / zero-crossing features
of the sample array being carried by the `AudioTrack` abstraction). -/
def detect_music_patterns (t : AudioTrack) : ℚ :=
  min (t.rmsEnergy * 10) 1 * (1 - min t.zeroCrossingRate 1)

/-- `VideoAnalyzer._analyze_audio_copyright`.  `VideoFileClip` raises on an
unopenable source, landing in the `except` branch that records the error. -/
def analyze_audio_copyright (src : VideoSource) : AudioAnalysis :=
  if src.opened = false then { score := 0, error := some "could not open source" }
  else
    match src.audio with
    | none => { score := 0, reason := some "No audio track" }
    | some t =>
      let score := detect_music_patterns t
      { score := score
        duration := (t.sampleCount : ℚ) / 22050
        has_music := score > 0.5 }

/-- `VideoAnalyzer._detect_logos_watermarks` (the logo-candidate contour
count being carried by the `Frame` abstraction). -/
def detect_logos_watermarks (f : Frame) : Bool :=
  f.logoCandidates > 3

/-- The frame indices sampled by `_analyze_visual_copyright`
(`range(0, total_frames, max(1, total_frames // 20))`). -/
def visualIndices (src : VideoSource) : List ℕ :=
  pyRange (capFrameCount src) (max 1 (capFrameCount src / 20))

/-- `VideoAnalyzer._analyze_visual_copyright`. -/
def analyze_visual_copyright (src : VideoSource) : VisualAnalysis :=
  let sampled := (visualIndices src).filterMap (capRead src)
  let logo_detections := sampled.countP detect_logos_watermarks
  let frames_analyzed := (visualIndices src).length
  let logo_ratio := (logo_detections : ℚ) / (max frames_analyzed 1 : ℕ)
  { score := min (logo_ratio * 2) 1
    logo_detections := logo_detections
    frames_analyzed := frames_analyzed }

/-- The filename keyword tables of `_identify_potential_sources`. -/
def movie_keywords : List String := ["movie", "film", "cinema", "trailer", "clip"]

/-- Music keyword table of `_identify_potential_sources`. -/
def music_keywords : List String := ["song", "music", "audio", "track", "album"]

/-- TV keyword table of `_identify_potential_sources`. -/
def tv_keywords : List String := ["episode", "series", "show", "tv"]

/-- `VideoAnalyzer._identify_potential_sources` (`os.path.basename` is
environment path handling; `VideoSource.filename` carries the basename). -/
def identify_potential_sources (src : VideoSource) : List String :=
  let filename := pyLower src.filename
  (movie_keywords.filter (fun k => strContains filename k)).map
      (fun k => "Movie content (keyword: " ++ k ++ ")") ++
    (music_keywords.filter (fun k => strContains filename k)).map
      (fun k => "Music content (keyword: " ++ k ++ ")") ++
    (tv_keywords.filter (fun k => strContains filename k)).map
      (fun k => "TV content (keyword: " ++ k ++ ")")

/-- `VideoAnalyzer._analyze_copyright` (both sub-analyses trap their own
exceptions, so the outer `except` producing a top-level `error` is
unreachable in the model). -/
def analyze_copyright (src : VideoSource) : CopyrightAnalysis :=
  let audio_analysis := analyze_audio_copyright src
  let visual_analysis := analyze_visual_copyright src
  let overall_score := max audio_analysis.score visual_analysis.score
  { error := none
    overall_score := overall_score
    audio_analysis := audio_analysis
    visual_analysis := visual_analysis
    potential_sources := identify_potential_sources src
    confidence := min (overall_score * 1.2) 1 }

/-- `VideoAnalyzer._detect_text_regions` — the source returns the empty list
for every frame (placeholder for an OCR engine that is not wired in). -/
def detect_text_regions (gray_frame : Frame) : List String := []

/-- The frame indices sampled by `_extract_text_from_video`
(`range(0, total_frames, max(1, total_frames // 10))`). -/
def textIndices (src : VideoSource) : List ℕ :=
  pyRange (capFrameCount src) (max 1 (capFrameCount src / 10))

/-- `VideoAnalyzer._extract_text_from_video`. -/
def extract_text_from_video (src : VideoSource) : String :=
  let sampled := (textIndices src).filterMap (capRead src)
  let extracted_text := sampled.foldl
    (fun acc f => acc ++ " " ++ pyJoin " " (detect_text_regions f)) ""
  pyStrip extracted_text

/-- The fraud keyword table of `_detect_fraud_patterns`. -/
def fraud_keywords : List String :=
  ["free money", "get rich quick", "guaranteed income", "work from home",
   "click here", "limited time", "act now", "urgent", "congratulations",
   "you have won", "claim your prize", "no risk", "easy money",
   "investment opportunity", "double your money", "bitcoin", "cryptocurrency"]

/-- `VideoAnalyzer._detect_fraud_patterns`. -/
def detect_fraud_patterns (text : String) : List String :=
  let text_lower := pyLower text
  let indicators := (fraud_keywords.filter (fun k => strContains text_lower k)).map
    (fun k => "Suspicious keyword: " ++ k)
  let indicators := indicators ++
    (if 0 < text.data.length ∧
        (text.data.countP Char.isUpper : ℚ) / (text.data.length : ℚ) > 0.3 then
      ["Excessive use of capital letters"] else [])
  let indicators := indicators ++
    (if text.data.count '!' > 3 then ["Excessive exclamation marks"] else [])
  indicators

/-- `VideoAnalyzer._categorize_fraud_types`.  Python's `list(set(...))`
imposes no particular order; `dedup` (keep first occurrences) is the
model's representative. -/
def categorize_fraud_types (indicators : List String) : List String :=
  (indicators.filterMap (fun indicator =>
    let lower := pyLower indicator
    if strContains lower "money" || strContains lower "income" ||
        strContains lower "rich" || strContains lower "investment" then
      some "Financial fraud"
    else if strContains lower "prize" || strContains lower "won" ||
        strContains lower "congratulations" then
      some "Prize scam"
    else if strContains lower "click" || strContains lower "link" ||
        strContains lower "urgent" then
      some "Phishing attempt"
    else none)).dedup

/-- The fraud score formula of `_analyze_fraud`
(`min(len(fraud_indicators) * 0.2, 1.0)`). -/
def fraud_score_of (fraud_indicators : List String) : ℚ :=
  min ((fraud_indicators.length : ℚ) * 0.2) 1

/-- Python `text[:500]`. -/
def pyTake500 (s : String) : String := ⟨s.data.take 500⟩

/-- `VideoAnalyzer._analyze_fraud` (nothing in the `try` body raises in the
model, so `error` is `none`). -/
def analyze_fraud (src : VideoSource) : FraudAnalysis :=
  let extracted_text := extract_text_from_video src
  let fraud_indicators := detect_fraud_patterns extracted_text
  { error := none
    score := fraud_score_of fraud_indicators
    indicators := fraud_indicators
    extracted_text := pyTake500 extracted_text
    fraud_types := categorize_fraud_types fraud_indicators }

/-- Membership in the red band of `_detect_violence`:
`inRange([0,50,50],[10,255,255]) + inRange([170,50,50],[180,255,255])`. -/
def isRedPixel (p : HSV) : Bool :=
  (p.h ≤ 10 || (170 ≤ p.h && p.h ≤ 180)) && 50 ≤ p.s && p.s ≤ 255 && 50 ≤ p.v && p.v ≤ 255

/-- `VideoAnalyzer._detect_violence`. -/
def detect_violence (f : Frame) : ℚ :=
  let red_percentage := (f.pixels.countP isRedPixel : ℚ) / (f.pixels.length : ℚ)
  min (red_percentage * 5) 1

/-- The frame indices sampled by `_analyze_blur_requirements`. -/
def blurIndices (src : VideoSource) : List ℕ :=
  pyRange (capFrameCount src) (max 1 (capFrameCount src / 20))

/-- `VideoAnalyzer._analyze_blur_requirements`. -/
def analyze_blur_requirements (src : VideoSource) : BlurAnalysis :=
  let sampled := (blurIndices src).filterMap
    (fun n => (capRead src n).map (fun f => (n, f)))
  let blur_regions := (sampled.map (fun nf =>
    let timestamp := (nf.1 : ℚ) / capFps src
    (if nf.2.faces ≠ [] then
      [{ timestamp := timestamp
         reason := "Personal identifiable information (faces)"
         severity := "medium" : BlurRegion }] else []) ++
    (if detect_violence nf.2 > 0.5 then
      [{ timestamp := timestamp
         reason := "Violent content"
         score := detect_violence nf.2
         severity := "high" : BlurRegion }] else []))).flatten
  { error := none
    requires_blur := blur_regions.length > 0
    blur_regions := blur_regions
    total_regions := blur_regions.length }

/-- The frame indices sampled by `_analyze_technical_quality`
(`frame_num = (total_frames // sample_frames) * i` for
`i in range(min(10, total_frames))`). -/
def techIndices (src : VideoSource) : List ℕ :=
  let total := capFrameCount src
  let sample_frames := min 10 total
  (List.range sample_frames).map (fun i => (total / sample_frames) * i)

/-- `VideoAnalyzer._rate_quality` (the brightness argument is accepted but,
as in the source, never used). -/
def rate_quality (blur_score : ℚ) (brightness : ℚ) : String :=
  if blur_score < 50 then "poor"
  else if blur_score < 150 then "fair"
  else if blur_score < 300 then "good"
  else "excellent"

/-- `VideoAnalyzer._analyze_technical_quality`
(`np.mean(xs) if xs else 0` for both averages). -/
def analyze_technical_quality (src : VideoSource) : TechnicalAnalysis :=
  let sampled := (techIndices src).filterMap (capRead src)
  let blur_scores := sampled.map Frame.sharpness
  let brightness_scores := sampled.map Frame.brightness
  let avg_blur := if blur_scores = [] then 0 else blur_scores.sum / (blur_scores.length : ℚ)
  let avg_brightness :=
    if brightness_scores = [] then 0 else brightness_scores.sum / (brightness_scores.length : ℚ)
  { error := none
    blur_score := avg_blur
    brightness_score := avg_brightness
    quality_rating := rate_quality avg_blur avg_brightness
    is_blurry := avg_blur < 100
    is_too_dark := avg_brightness < 50
    is_too_bright := avg_brightness > 200 }

/-- `VideoAnalyzer.analyze_video` (the `file_info` entry, never read by the
aggregator, is omitted from the model). -/
def analyze_video (src : VideoSource) (config : ModerationConfig) : Analysis :=
  { nudity_analysis := analyze_nudity src config
    copyright_analysis := analyze_copyright src
    fraud_analysis := analyze_fraud src
    blur_analysis := analyze_blur_requirements src
    technical_analysis := analyze_technical_quality src }

/-- The decision part of `ModerationEngine.moderate_video` (analysis followed
by `_make_moderation_decision`; the surrounding dict assembly, history append
and wall-clock timestamps are process state outside the decision logic). -/
def moderate_video (src : VideoSource) (config : ModerationConfig) : Decision :=
  make_moderation_decision (analyze_video src config) config

/-! ## Concrete inputs used by the witness theorems -/

/-- A configuration with strict nudity sensitivity. -/
def strict_config : ModerationConfig :=
  { default_moderation_config with nudity_sensitivity := "strict" }

/-- An analysis whose nudity signal is maximal (used to witness the
aggregation claims on a rejecting run). -/
def sample_nudity_analysis : Analysis :=
  { nudity_analysis := { overall_score := 1, category := "explicit" } }

/-- A nudity analysis scoring 0.9 (above every sensitivity threshold). -/
def sample_nudity_09 : NudityAnalysis := { overall_score := 0.9 }

/-- A copyright analysis scoring 0.8. -/
def sample_copyright_08 : CopyrightAnalysis := { overall_score := 0.8 }

/-- An analysis in which every extractor failed. -/
def sample_all_error : Analysis :=
  { nudity_analysis := { error := some "exception" }
    copyright_analysis := { error := some "exception" }
    fraud_analysis := { error := some "exception" }
    technical_analysis := { error := some "exception" } }

/-- A skin-band HSV pixel. -/
def skin_pixel : HSV := { h := 10, s := 30, v := 100 }

/-- An HSV pixel outside the skin band. -/
def blue_pixel : HSV := { h := 120, s := 30, v := 100 }

/-- A frame in which 70% of the pixels lie in the skin band. -/
def skin_frame : Frame :=
  { pixels := List.replicate 7 skin_pixel ++ List.replicate 3 blue_pixel
    sharpness := 200
    brightness := 127 }

/-- A readable one-frame video whose only frame is 70% skin-band. -/
def skin_video : VideoSource :=
  { opened := true, frames := [skin_frame], fps := 30, audio := none, filename := "upload.mp4" }

/-- A readable video with a frame but no audio track. -/
def silent_video : VideoSource :=
  { opened := true, frames := [skin_frame], fps := 30, audio := none, filename := "upload.mp4" }

/-- A source that cannot be opened. -/
def unreadable_source : VideoSource :=
  { opened := false, frames := [], fps := 0, audio := none, filename := "upload.mp4" }

/-- A scam text with two fraud keywords and four exclamation marks. -/
def sample_fraud_text : String := "free money!!!! act now"

/-! ## Basic lemmas about the aggregator -/

theorem str_data_append (s t : String) : (s ++ t).data = s.data ++ t.data := rfl

theorem nudity_head_eq :
    ("Nudity detected (score: " : String).data =
      ("Nudity detected" : String).data ++ (" (score: " : String).data := rfl

theorem sensitivityThresholds_lenient : sensitivityThresholds "lenient" = 0.8 := rfl

theorem sensitivityThresholds_moderate : sensitivityThresholds "moderate" = 0.6 := rfl

theorem sensitivityThresholds_strict : sensitivityThresholds "strict" = 0.4 := rfl

theorem make_moderation_decision_violations (a : Analysis) (c : ModerationConfig) :
    (make_moderation_decision a c).violations = decision_violations a c := rfl

theorem make_moderation_decision_decision (a : Analysis) (c : ModerationConfig) :
    (make_moderation_decision a c).decision =
      if decision_violations a c = [] then "approved" else "rejected" := rfl

theorem make_moderation_decision_risk (a : Analysis) (c : ModerationConfig) :
    (make_moderation_decision a c).overall_risk_score =
      ((decision_violations a c).map CheckResult.severity_score).sum := rfl

theorem make_moderation_decision_reasoning (a : Analysis) (c : ModerationConfig) :
    (make_moderation_decision a c).reasoning =
      if decision_violations a c = [] then
        "Video approved - all content checks passed within acceptable thresholds"
      else "Video rejected due to: " ++
        pyJoin "; " ((decision_violations a c).map CheckResult.reason) := rfl

theorem check_nudity_violation_error (a : NudityAnalysis) (c : ModerationConfig)
    (he : a.error.isSome) :
    check_nudity_violation a c = { violation := false, reason := "Nudity analysis failed" } := by
  unfold check_nudity_violation
  rw [if_pos he]

theorem check_copyright_violation_error (a : CopyrightAnalysis) (c : ModerationConfig)
    (he : a.error.isSome) :
    check_copyright_violation a c =
      { violation := false, reason := "Copyright analysis failed" } := by
  unfold check_copyright_violation
  rw [if_pos he]

theorem check_fraud_violation_error (a : FraudAnalysis) (c : ModerationConfig)
    (he : a.error.isSome) :
    check_fraud_violation a c = { violation := false, reason := "Fraud analysis failed" } := by
  unfold check_fraud_violation
  rw [if_pos he]

theorem check_technical_violations_error (a : TechnicalAnalysis) (c : ModerationConfig)
    (he : a.error.isSome) :
    check_technical_violations a c =
      { violation := false, reason := "Technical analysis failed" } := by
  unfold check_technical_violations
  rw [if_pos he]

theorem check_nudity_violation_iff (a : NudityAnalysis) (c : ModerationConfig) :
    (check_nudity_violation a c).violation = true ↔
      a.error = none ∧ a.overall_score ≥ sensitivityThresholds c.nudity_sensitivity := by
  rcases he : a.error with _ | x
  · by_cases hs : a.overall_score ≥ sensitivityThresholds c.nudity_sensitivity <;>
      simp [check_nudity_violation, he, hs]
  · simp [check_nudity_violation, he]

theorem check_copyright_violation_iff (a : CopyrightAnalysis) (c : ModerationConfig) :
    (check_copyright_violation a c).violation = true ↔
      a.error = none ∧ a.overall_score ≥ c.copyright_threshold / 100 := by
  rcases he : a.error with _ | x
  · by_cases hs : a.overall_score ≥ c.copyright_threshold / 100 <;>
      simp [check_copyright_violation, he, hs]
  · simp [check_copyright_violation, he]

theorem check_fraud_violation_iff (a : FraudAnalysis) (c : ModerationConfig) :
    (check_fraud_violation a c).violation = true ↔
      a.error = none ∧ a.score ≥ sensitivityThresholds c.fraud_sensitivity := by
  rcases he : a.error with _ | x
  · by_cases hs : a.score ≥ sensitivityThresholds c.fraud_sensitivity <;>
      simp [check_fraud_violation, he, hs]
  · simp [check_fraud_violation, he]

theorem check_technical_violations_iff (a : TechnicalAnalysis) (c : ModerationConfig) :
    (check_technical_violations a c).violation = true ↔
      a.error = none ∧ (a.is_blurry = true ∨ a.is_too_dark = true ∨ a.is_too_bright = true ∨
        (a.quality_rating = "poor" ∧ c.reject_poor_quality = true)) := by
  rcases he : a.error with _ | x
  · by_cases hb : a.is_blurry <;> by_cases hd : a.is_too_dark <;>
      by_cases hl : a.is_too_bright <;>
      by_cases hq : a.quality_rating = "poor" ∧ c.reject_poor_quality = true <;>
      simp [check_technical_violations, technical_issues, he, hb, hd, hl, hq]
  · simp [check_technical_violations, he]

theorem check_nudity_violation_spec (a : NudityAnalysis) (c : ModerationConfig)
    (he : a.error = none)
    (hs : a.overall_score ≥ sensitivityThresholds c.nudity_sensitivity) :
    (check_nudity_violation a c).vtype = "nudity" ∧
    (check_nudity_violation a c).score = a.overall_score ∧
    (check_nudity_violation a c).severity_score = min (a.overall_score * 1.5) 1 ∧
    ∃ rest : List Char,
      (check_nudity_violation a c).reason.data = "Nudity detected".data ++ rest := by
  simp only [check_nudity_violation, he, Option.isSome_none, Bool.false_eq_true, if_false,
    ge_iff_le, hs, if_true]
  refine ⟨trivial, trivial, trivial, ?_⟩
  split
  · exact ⟨(" (score: " ++ fmt2 a.overall_score ++ ", category: " ++ a.category ++ ")").data,
      by simp [str_data_append, nudity_head_eq, List.append_assoc]⟩
  · exact ⟨(" (score: " ++ fmt2 a.overall_score ++ ", category: " ++ a.category ++ ")" ++
      " at timestamps: " ++
      pyJoin ", " ((a.detections.take 3).map (fun d => fmt1 d.timestamp ++ "s"))).data,
      by simp [str_data_append, nudity_head_eq, List.append_assoc]⟩

theorem check_copyright_violation_spec (a : CopyrightAnalysis) (c : ModerationConfig)
    (he : a.error = none) (hs : a.overall_score ≥ c.copyright_threshold / 100) :
    (check_copyright_violation a c).vtype = "copyright" ∧
    (check_copyright_violation a c).score = a.overall_score ∧
    (check_copyright_violation a c).severity_score = a.overall_score := by
  simp [check_copyright_violation, he, hs]

theorem check_fraud_violation_spec (a : FraudAnalysis) (c : ModerationConfig)
    (he : a.error = none) (hs : a.score ≥ sensitivityThresholds c.fraud_sensitivity) :
    (check_fraud_violation a c).vtype = "fraud" ∧
    (check_fraud_violation a c).score = a.score ∧
    (check_fraud_violation a c).severity_score = a.score * 1.2 := by
  simp [check_fraud_violation, he, hs]

theorem check_technical_violations_spec (a : TechnicalAnalysis) (c : ModerationConfig)
    (h : (check_technical_violations a c).violation = true) :
    (check_technical_violations a c).vtype = "technical" ∧
    (check_technical_violations a c).severity_score = 0.3 := by
  obtain ⟨he, hcond⟩ := (check_technical_violations_iff a c).mp h
  have hi : technical_issues a c ≠ [] := by
    unfold technical_issues
    rcases hcond with hb | hd | hl | hq
    · simp [hb]
    · simp [hd]
    · simp [hl]
    · simp [hq]
  unfold check_technical_violations
  rw [if_neg (by simp [he]), if_pos hi]
  exact ⟨rfl, rfl⟩

/-- Every member of the accumulated violations list is one of the four check
results, taken with its `violation` flag set. -/
theorem mem_decision_violations (a : Analysis) (c : ModerationConfig) (v : CheckResult)
    (hv : v ∈ decision_violations a c) :
    (v = check_nudity_violation a.nudity_analysis c ∧
      (check_nudity_violation a.nudity_analysis c).violation = true) ∨
    (v = check_copyright_violation a.copyright_analysis c ∧
      (check_copyright_violation a.copyright_analysis c).violation = true) ∨
    (v = check_fraud_violation a.fraud_analysis c ∧
      (check_fraud_violation a.fraud_analysis c).violation = true) ∨
    (v = check_technical_violations a.technical_analysis c ∧
      (check_technical_violations a.technical_analysis c).violation = true) := by
  unfold decision_violations at hv
  simp only [List.mem_append] at hv
  rcases hv with ((h1 | h2) | h3) | h4
  · left
    by_cases hb : (check_nudity_violation a.nudity_analysis c).violation
    · simp only [if_pos hb, List.mem_singleton] at h1
      exact ⟨h1, hb⟩
    · simp [if_neg hb] at h1
  · right; left
    by_cases hb : (check_copyright_violation a.copyright_analysis c).violation
    · simp only [if_pos hb, List.mem_singleton] at h2
      exact ⟨h2, hb⟩
    · simp [if_neg hb] at h2
  · right; right; left
    by_cases hb : (check_fraud_violation a.fraud_analysis c).violation
    · simp only [if_pos hb, List.mem_singleton] at h3
      exact ⟨h3, hb⟩
    · simp [if_neg hb] at h3
  · right; right; right
    by_cases hb : (check_technical_violations a.technical_analysis c).violation
    · simp only [if_pos hb, List.mem_singleton] at h4
      exact ⟨h4, hb⟩
    · simp [if_neg hb] at h4

/-- A violation tagged `"nudity"` can only come from the nudity check. -/
theorem nudity_member_fired (a : Analysis) (c : ModerationConfig) (v : CheckResult)
    (hv : v ∈ decision_violations a c) (ht : v.vtype = "nudity") :
    (check_nudity_violation a.nudity_analysis c).violation = true := by
  rcases mem_decision_violations a c v hv with ⟨hveq, hb⟩ | ⟨hveq, hb⟩ | ⟨hveq, hb⟩ | ⟨hveq, hb⟩
  · exact hb
  · subst hveq
    obtain ⟨he, hs⟩ := (check_copyright_violation_iff _ _).mp hb
    obtain ⟨h1, -, -⟩ := check_copyright_violation_spec _ _ he hs
    rw [h1] at ht
    exact absurd ht (by decide)
  · subst hveq
    obtain ⟨he, hs⟩ := (check_fraud_violation_iff _ _).mp hb
    obtain ⟨h1, -, -⟩ := check_fraud_violation_spec _ _ he hs
    rw [h1] at ht
    exact absurd ht (by decide)
  · subst hveq
    obtain ⟨h1, -⟩ := check_technical_violations_spec _ _ hb
    rw [h1] at ht
    exact absurd ht (by decide)

/-- A violation tagged `"copyright"` can only come from the copyright check. -/
theorem copyright_member_fired (a : Analysis) (c : ModerationConfig) (v : CheckResult)
    (hv : v ∈ decision_violations a c) (ht : v.vtype = "copyright") :
    (check_copyright_violation a.copyright_analysis c).violation = true := by
  rcases mem_decision_violations a c v hv with ⟨hveq, hb⟩ | ⟨hveq, hb⟩ | ⟨hveq, hb⟩ | ⟨hveq, hb⟩
  · subst hveq
    obtain ⟨he, hs⟩ := (check_nudity_violation_iff _ _).mp hb
    obtain ⟨h1, -, -, -⟩ := check_nudity_violation_spec _ _ he hs
    rw [h1] at ht
    exact absurd ht (by decide)
  · exact hb
  · subst hveq
    obtain ⟨he, hs⟩ := (check_fraud_violation_iff _ _).mp hb
    obtain ⟨h1, -, -⟩ := check_fraud_violation_spec _ _ he hs
    rw [h1] at ht
    exact absurd ht (by decide)
  · subst hveq
    obtain ⟨h1, -⟩ := check_technical_violations_spec _ _ hb
    rw [h1] at ht
    exact absurd ht (by decide)

/-- A violation tagged `"fraud"` can only come from the fraud check. -/
theorem fraud_member_fired (a : Analysis) (c : ModerationConfig) (v : CheckResult)
    (hv : v ∈ decision_violations a c) (ht : v.vtype = "fraud") :
    (check_fraud_violation a.fraud_analysis c).violation = true := by
  rcases mem_decision_violations a c v hv with ⟨hveq, hb⟩ | ⟨hveq, hb⟩ | ⟨hveq, hb⟩ | ⟨hveq, hb⟩
  · subst hveq
    obtain ⟨he, hs⟩ := (check_nudity_violation_iff _ _).mp hb
    obtain ⟨h1, -, -, -⟩ := check_nudity_violation_spec _ _ he hs
    rw [h1] at ht
    exact absurd ht (by decide)
  · subst hveq
    obtain ⟨he, hs⟩ := (check_copyright_violation_iff _ _).mp hb
    obtain ⟨h1, -, -⟩ := check_copyright_violation_spec _ _ he hs
    rw [h1] at ht
    exact absurd ht (by decide)
  · exact hb
  · subst hveq
    obtain ⟨h1, -⟩ := check_technical_violations_spec _ _ hb
    rw [h1] at ht
    exact absurd ht (by decide)

/-- A violation tagged `"technical"` can only come from the technical check. -/
theorem technical_member_fired (a : Analysis) (c : ModerationConfig) (v : CheckResult)
    (hv : v ∈ decision_violations a c) (ht : v.vtype = "technical") :
    (check_technical_violations a.technical_analysis c).violation = true := by
  rcases mem_decision_violations a c v hv with ⟨hveq, hb⟩ | ⟨hveq, hb⟩ | ⟨hveq, hb⟩ | ⟨hveq, hb⟩
  · subst hveq
    obtain ⟨he, hs⟩ := (check_nudity_violation_iff _ _).mp hb
    obtain ⟨h1, -, -, -⟩ := check_nudity_violation_spec _ _ he hs
    rw [h1] at ht
    exact absurd ht (by decide)
  · subst hveq
    obtain ⟨he, hs⟩ := (check_copyright_violation_iff _ _).mp hb
    obtain ⟨h1, -, -⟩ := check_copyright_violation_spec _ _ he hs
    rw [h1] at ht
    exact absurd ht (by decide)
  · subst hveq
    obtain ⟨he, hs⟩ := (check_fraud_violation_iff _ _).mp hb
    obtain ⟨h1, -, -⟩ := check_fraud_violation_spec _ _ he hs
    rw [h1] at ht
    exact absurd ht (by decide)
  · exact hb

/-! ## The claims -/

/-- C1: For every analysis outcome of a `moderate()` call (every combination
of per-extractor SignalResults and every ModerationConfig), the resulting
decision equals `"rejected"` if and only if the violations list is
non-empty, and equals `"approved"` otherwise. -/
theorem claim_C1_decision_iff_violations (analysis : Analysis) (config : ModerationConfig) :
    ((make_moderation_decision analysis config).decision = "rejected" ↔
      (make_moderation_decision analysis config).violations ≠ []) ∧
    ((make_moderation_decision analysis config).decision = "approved" ↔
      (make_moderation_decision analysis config).violations = []) := by
  rw [make_moderation_decision_decision, make_moderation_decision_violations]
  by_cases h : decision_violations analysis config = [] <;> simp [h]

/-- Witness for C1 at a concrete input: the empty analysis is approved with
no violations. -/
theorem claim_C1_decision_iff_violations_witness :
    (make_moderation_decision {} default_moderation_config).decision = "approved" :=
  (claim_C1_decision_iff_violations {} default_moderation_config).2.mpr (by
    rw [make_moderation_decision_violations]
    norm_num [decision_violations, check_nudity_violation, check_copyright_violation,
      check_fraud_violation, check_technical_violations, technical_issues,
      sensitivityThresholds_moderate, sensitivityThresholds_strict,
      default_moderation_config])

/-- C2: For all legal inputs to the confidence estimator (a non-negative
risk score that is the sum of the given violations' severity scores), the
computed confidence lies in `[0,1]`; with no violations it equals
`min(0.9 + (1 - risk)*0.1, 1.0)`, with violations it equals
`min(0.7 + min(risk*0.2, 0.2) + min(count*0.05, 0.1), 1.0)`, and each branch
is monotone in risk and violation count (non-increasing in risk on the
no-violation branch, non-decreasing in risk and count on the violation
branch). -/
theorem claim_C2_confidence_contract :
    (∀ (risk : ℚ) (violations : List CheckResult),
      risk = (violations.map CheckResult.severity_score).sum → 0 ≤ risk →
      0 ≤ calculate_confidence risk violations ∧ calculate_confidence risk violations ≤ 1) ∧
    (∀ risk : ℚ, calculate_confidence risk [] = min (0.9 + (1 - risk) * 0.1) 1) ∧
    (∀ (risk : ℚ) (violations : List CheckResult), violations ≠ [] →
      calculate_confidence risk violations =
        min (0.7 + min (risk * 0.2) 0.2 + min ((violations.length : ℚ) * 0.05) 0.1) 1) ∧
    (∀ (r r' : ℚ) (violations : List CheckResult), violations ≠ [] → r ≤ r' →
      calculate_confidence r violations ≤ calculate_confidence r' violations) ∧
    (∀ r r' : ℚ, r ≤ r' → calculate_confidence r' [] ≤ calculate_confidence r []) ∧
    (∀ (risk : ℚ) (vs vs' : List CheckResult), vs ≠ [] → vs' ≠ [] → vs.length ≤ vs'.length →
      calculate_confidence risk vs ≤ calculate_confidence risk vs') := by
  refine ⟨?_, ?_, ?_, ?_, ?_, ?_⟩
  · intro risk violations hsum h0
    by_cases hv : violations = []
    · subst hv
      simp only [List.map_nil, List.sum_nil] at hsum
      subst hsum
      unfold calculate_confidence
      norm_num
    · have hsb : 0 ≤ min (risk * 0.2) (0.2 : ℚ) :=
        le_min (mul_nonneg h0 (by norm_num)) (by norm_num)
      have hvb : 0 ≤ min ((violations.length : ℚ) * 0.05) (0.1 : ℚ) :=
        le_min (mul_nonneg (Nat.cast_nonneg _) (by norm_num)) (by norm_num)
      unfold calculate_confidence
      rw [if_neg hv]
      constructor
      · exact le_min (by linarith) (by norm_num)
      · exact min_le_right _ _
  · intro risk
    unfold calculate_confidence
    rw [if_pos rfl]
  · intro risk violations hv
    unfold calculate_confidence
    rw [if_neg hv]
  · intro r r' violations hv hr
    unfold calculate_confidence
    rw [if_neg hv, if_neg hv]
    exact min_le_min
      (add_le_add (add_le_add le_rfl
        (min_le_min (mul_le_mul_of_nonneg_right hr (by norm_num)) le_rfl)) le_rfl) le_rfl
  · intro r r' hr
    unfold calculate_confidence
    rw [if_pos rfl, if_pos rfl]
    exact min_le_min (by linarith) le_rfl
  · intro risk vs vs' hv hv' hlen
    unfold calculate_confidence
    rw [if_neg hv, if_neg hv']
    exact min_le_min
      (add_le_add le_rfl (min_le_min
        (mul_le_mul_of_nonneg_right (by exact_mod_cast hlen) (by norm_num)) le_rfl)) le_rfl

/-- Witness for C2 at a concrete input: with no violations and zero risk the
confidence is bounded by `[0,1]`. -/
theorem claim_C2_confidence_contract_witness :
    0 ≤ calculate_confidence 0 [] ∧ calculate_confidence 0 [] ≤ 1 :=
  claim_C2_confidence_contract.1 0 [] (by simp) le_rfl

/-- C3: For every `moderate()` call, `overall_risk_score` equals the sum of
the severity scores of exactly the emitted violations, where the severity of
a nudity violation is `min(score*1.5, 1.0)`, of a copyright violation the
raw copyright score, of a fraud violation `score*1.2`, and of a technical
violation the constant `0.3`; no other term contributes and no ceiling is
applied to the sum. -/
theorem claim_C3_risk_is_severity_sum (analysis : Analysis) (config : ModerationConfig) :
    (make_moderation_decision analysis config).overall_risk_score =
      ((make_moderation_decision analysis config).violations.map CheckResult.severity_score).sum ∧
    ∀ v ∈ (make_moderation_decision analysis config).violations,
      (v.vtype = "nudity" ∧
        v.severity_score = min (analysis.nudity_analysis.overall_score * 1.5) 1) ∨
      (v.vtype = "copyright" ∧ v.severity_score = analysis.copyright_analysis.overall_score) ∨
      (v.vtype = "fraud" ∧ v.severity_score = analysis.fraud_analysis.score * 1.2) ∨
      (v.vtype = "technical" ∧ v.severity_score = 0.3) := by
  refine ⟨rfl, ?_⟩
  rw [make_moderation_decision_violations]
  intro v hv
  rcases mem_decision_violations analysis config v hv with
    ⟨hveq, hb⟩ | ⟨hveq, hb⟩ | ⟨hveq, hb⟩ | ⟨hveq, hb⟩
  · subst hveq
    obtain ⟨he, hs⟩ := (check_nudity_violation_iff _ _).mp hb
    obtain ⟨h1, -, h3, -⟩ := check_nudity_violation_spec _ _ he hs
    exact Or.inl ⟨h1, h3⟩
  · subst hveq
    obtain ⟨he, hs⟩ := (check_copyright_violation_iff _ _).mp hb
    obtain ⟨h1, -, h3⟩ := check_copyright_violation_spec _ _ he hs
    exact Or.inr (Or.inl ⟨h1, h3⟩)
  · subst hveq
    obtain ⟨he, hs⟩ := (check_fraud_violation_iff _ _).mp hb
    obtain ⟨h1, -, h3⟩ := check_fraud_violation_spec _ _ he hs
    exact Or.inr (Or.inr (Or.inl ⟨h1, h3⟩))
  · subst hveq
    obtain ⟨h1, h2⟩ := check_technical_violations_spec _ _ hb
    exact Or.inr (Or.inr (Or.inr ⟨h1, h2⟩))

/-- Witness for C3 at a concrete input: the maximal-nudity analysis emits a
nudity violation whose severity is `min(score*1.5, 1)`. -/
theorem claim_C3_risk_is_severity_sum_witness :
    ((check_nudity_violation sample_nudity_analysis.nudity_analysis
        default_moderation_config).vtype = "nudity" ∧
      (check_nudity_violation sample_nudity_analysis.nudity_analysis
        default_moderation_config).severity_score =
        min (sample_nudity_analysis.nudity_analysis.overall_score * 1.5) 1) ∨
    ((check_nudity_violation sample_nudity_analysis.nudity_analysis
        default_moderation_config).vtype = "copyright" ∧
      (check_nudity_violation sample_nudity_analysis.nudity_analysis
        default_moderation_config).severity_score =
        sample_nudity_analysis.copyright_analysis.overall_score) ∨
    ((check_nudity_violation sample_nudity_analysis.nudity_analysis
        default_moderation_config).vtype = "fraud" ∧
      (check_nudity_violation sample_nudity_analysis.nudity_analysis
        default_moderation_config).severity_score =
        sample_nudity_analysis.fraud_analysis.score * 1.2) ∨
    ((check_nudity_violation sample_nudity_analysis.nudity_analysis
        default_moderation_config).vtype = "technical" ∧
      (check_nudity_violation sample_nudity_analysis.nudity_analysis
        default_moderation_config).severity_score = 0.3) :=
  (claim_C3_risk_is_severity_sum sample_nudity_analysis default_moderation_config).2
    (check_nudity_violation sample_nudity_analysis.nudity_analysis default_moderation_config)
    (by
      rw [make_moderation_decision_violations]
      have hb : (check_nudity_violation sample_nudity_analysis.nudity_analysis
          default_moderation_config).violation = true := by
        rw [check_nudity_violation_iff]
        refine ⟨rfl, ?_⟩
        rw [show (default_moderation_config.nudity_sensitivity) = "moderate" from rfl,
          sensitivityThresholds_moderate]
        norm_num [sample_nudity_analysis]
      unfold decision_violations
      rw [if_pos hb]
      simp)

/-- C4: The nudity and fraud sensitivity-to-threshold mapping is
`{lenient: 0.8, moderate: 0.6, strict: 0.4}`; for a fixed extractor score a
violation emitted under `lenient` is also emitted under `moderate`, and one
emitted under `moderate` is also emitted under `strict`; copyright instead
uses `copyright_threshold/100` directly as its threshold. -/
theorem claim_C4_sensitivity_threshold_tables :
    (sensitivityThresholds "lenient" = 0.8 ∧ sensitivityThresholds "moderate" = 0.6 ∧
      sensitivityThresholds "strict" = 0.4) ∧
    (∀ (a : NudityAnalysis) (c : ModerationConfig),
      ((check_nudity_violation a { c with nudity_sensitivity := "lenient" }).violation = true →
        (check_nudity_violation a { c with nudity_sensitivity := "moderate" }).violation = true) ∧
      ((check_nudity_violation a { c with nudity_sensitivity := "moderate" }).violation = true →
        (check_nudity_violation a { c with nudity_sensitivity := "strict" }).violation = true)) ∧
    (∀ (a : FraudAnalysis) (c : ModerationConfig),
      ((check_fraud_violation a { c with fraud_sensitivity := "lenient" }).violation = true →
        (check_fraud_violation a { c with fraud_sensitivity := "moderate" }).violation = true) ∧
      ((check_fraud_violation a { c with fraud_sensitivity := "moderate" }).violation = true →
        (check_fraud_violation a { c with fraud_sensitivity := "strict" }).violation = true)) ∧
    (∀ (a : CopyrightAnalysis) (c : ModerationConfig), a.error = none →
      ((check_copyright_violation a c).violation = true ↔
        a.overall_score ≥ c.copyright_threshold / 100)) := by
  refine ⟨⟨rfl, rfl, rfl⟩, ?_, ?_, ?_⟩
  · intro a c
    constructor
    · intro h
      obtain ⟨he, hs⟩ := (check_nudity_violation_iff _ _).mp h
      refine (check_nudity_violation_iff _ _).mpr ⟨he, ?_⟩
      have hs' : a.overall_score ≥ (0.8 : ℚ) := hs
      have hgoal : a.overall_score ≥ (0.6 : ℚ) := by linarith
      exact hgoal
    · intro h
      obtain ⟨he, hs⟩ := (check_nudity_violation_iff _ _).mp h
      refine (check_nudity_violation_iff _ _).mpr ⟨he, ?_⟩
      have hs' : a.overall_score ≥ (0.6 : ℚ) := hs
      have hgoal : a.overall_score ≥ (0.4 : ℚ) := by linarith
      exact hgoal
  · intro a c
    constructor
    · intro h
      obtain ⟨he, hs⟩ := (check_fraud_violation_iff _ _).mp h
      refine (check_fraud_violation_iff _ _).mpr ⟨he, ?_⟩
      have hs' : a.score ≥ (0.8 : ℚ) := hs
      have hgoal : a.score ≥ (0.6 : ℚ) := by linarith
      exact hgoal
    · intro h
      obtain ⟨he, hs⟩ := (check_fraud_violation_iff _ _).mp h
      refine (check_fraud_violation_iff _ _).mpr ⟨he, ?_⟩
      have hs' : a.score ≥ (0.6 : ℚ) := hs
      have hgoal : a.score ≥ (0.4 : ℚ) := by linarith
      exact hgoal
  · intro a c he
    rw [check_copyright_violation_iff]
    simp [he]

/-- Witness for C4 at a concrete input: a nudity score of 0.9 that violates
under `lenient` also violates under `moderate`. -/
theorem claim_C4_sensitivity_threshold_tables_witness :
    (check_nudity_violation sample_nudity_09
      { default_moderation_config with nudity_sensitivity := "moderate" }).violation = true :=
  (claim_C4_sensitivity_threshold_tables.2.1 sample_nudity_09 default_moderation_config).1 (by
    rw [check_nudity_violation_iff]
    refine ⟨rfl, ?_⟩
    rw [show ({ default_moderation_config with nudity_sensitivity := "lenient" }
        : ModerationConfig).nudity_sensitivity = "lenient" from rfl,
      sensitivityThresholds_lenient]
    norm_num [sample_nudity_09])

/-- C5: For every per-extractor analysis result that carries an error, the
corresponding violation check yields `violation = False` with a diagnostic
reason, that category contributes nothing to `overall_risk_score` (no
violation of that type is emitted, and the risk score remains the sum over
the emitted violations), and the pipeline still produces a complete
decision (`approved` or `rejected`) rather than aborting. -/
theorem claim_C5_extractor_errors_nonfatal (analysis : Analysis) (config : ModerationConfig) :
    (analysis.nudity_analysis.error.isSome = true →
      (check_nudity_violation analysis.nudity_analysis config).violation = false ∧
      (check_nudity_violation analysis.nudity_analysis config).reason = "Nudity analysis failed" ∧
      ∀ v ∈ (make_moderation_decision analysis config).violations, v.vtype ≠ "nudity") ∧
    (analysis.copyright_analysis.error.isSome = true →
      (check_copyright_violation analysis.copyright_analysis config).violation = false ∧
      (check_copyright_violation analysis.copyright_analysis config).reason =
        "Copyright analysis failed" ∧
      ∀ v ∈ (make_moderation_decision analysis config).violations, v.vtype ≠ "copyright") ∧
    (analysis.fraud_analysis.error.isSome = true →
      (check_fraud_violation analysis.fraud_analysis config).violation = false ∧
      (check_fraud_violation analysis.fraud_analysis config).reason = "Fraud analysis failed" ∧
      ∀ v ∈ (make_moderation_decision analysis config).violations, v.vtype ≠ "fraud") ∧
    (analysis.technical_analysis.error.isSome = true →
      (check_technical_violations analysis.technical_analysis config).violation = false ∧
      (check_technical_violations analysis.technical_analysis config).reason =
        "Technical analysis failed" ∧
      ∀ v ∈ (make_moderation_decision analysis config).violations, v.vtype ≠ "technical") ∧
    ((make_moderation_decision analysis config).overall_risk_score =
      ((make_moderation_decision analysis config).violations.map CheckResult.severity_score).sum) ∧
    ((make_moderation_decision analysis config).decision = "approved" ∨
      (make_moderation_decision analysis config).decision = "rejected") := by
  refine ⟨?_, ?_, ?_, ?_, rfl, ?_⟩
  · intro he
    rw [check_nudity_violation_error _ _ he]
    refine ⟨rfl, rfl, ?_⟩
    rw [make_moderation_decision_violations]
    intro v hv ht
    have hfired := nudity_member_fired analysis config v hv ht
    rw [check_nudity_violation_error _ _ he] at hfired
    exact absurd hfired (by simp)
  · intro he
    rw [check_copyright_violation_error _ _ he]
    refine ⟨rfl, rfl, ?_⟩
    rw [make_moderation_decision_violations]
    intro v hv ht
    have hfired := copyright_member_fired analysis config v hv ht
    rw [check_copyright_violation_error _ _ he] at hfired
    exact absurd hfired (by simp)
  · intro he
    rw [check_fraud_violation_error _ _ he]
    refine ⟨rfl, rfl, ?_⟩
    rw [make_moderation_decision_violations]
    intro v hv ht
    have hfired := fraud_member_fired analysis config v hv ht
    rw [check_fraud_violation_error _ _ he] at hfired
    exact absurd hfired (by simp)
  · intro he
    rw [check_technical_violations_error _ _ he]
    refine ⟨rfl, rfl, ?_⟩
    rw [make_moderation_decision_violations]
    intro v hv ht
    have hfired := technical_member_fired analysis config v hv ht
    rw [check_technical_violations_error _ _ he] at hfired
    exact absurd hfired (by simp)
  · rw [make_moderation_decision_decision]
    by_cases h : decision_violations analysis config = []
    · exact Or.inl (by rw [if_pos h])
    · exact Or.inr (by rw [if_neg h])

/-- Witness for C5 at a concrete input: with every extractor failed, all four
checks report `violation = false` with their diagnostic reasons. -/
theorem claim_C5_extractor_errors_nonfatal_witness :
    (check_nudity_violation sample_all_error.nudity_analysis
      default_moderation_config).violation = false ∧
    (check_nudity_violation sample_all_error.nudity_analysis
      default_moderation_config).reason = "Nudity analysis failed" ∧
    (check_technical_violations sample_all_error.technical_analysis
      default_moderation_config).violation = false ∧
    (check_technical_violations sample_all_error.technical_analysis
      default_moderation_config).reason = "Technical analysis failed" := by
  have h := claim_C5_extractor_errors_nonfatal sample_all_error default_moderation_config
  obtain ⟨h1, h2⟩ := h.1 (by rfl)
  obtain ⟨h4, h5⟩ := h.2.2.2.1 (by rfl)
  exact ⟨h1, h2.1, h4, h5.1⟩

/-! ## String-search lemmas (for the fraud extractor and the reasoning text) -/

theorem beginsWith_self_append : ∀ (n b : List Char), beginsWith n (n ++ b) = true
  | [], _ => rfl
  | a :: as, b => by simp [beginsWith, beginsWith_self_append as b]

theorem hasSubstr_nil_needle : ∀ hay : List Char, hasSubstr [] hay = true
  | [] => rfl
  | _ :: rest => by simp [hasSubstr, beginsWith]

theorem hasSubstr_self_append : ∀ (n b : List Char), hasSubstr n (n ++ b) = true
  | [], b => hasSubstr_nil_needle b
  | a :: as, b => by
    simp only [List.cons_append, hasSubstr, Bool.or_eq_true]
    exact Or.inl (by simpa using beginsWith_self_append (a :: as) b)

theorem hasSubstr_append_left (n h : List Char) (hh : hasSubstr n h = true) :
    ∀ a : List Char, hasSubstr n (a ++ h) = true
  | [] => hh
  | c :: cs => by simp [hasSubstr, hasSubstr_append_left n h hh cs]

theorem beginsWith_map (f : Char → Char) : ∀ (n h : List Char), beginsWith n h = true →
    beginsWith (n.map f) (h.map f) = true
  | [], _, _ => rfl
  | _ :: _, [], hh => by simp [beginsWith] at hh
  | a :: as, b :: bs, hh => by
    simp only [beginsWith, Bool.and_eq_true, decide_eq_true_eq] at hh
    obtain ⟨hab, h2⟩ := hh
    subst hab
    simp [List.map_cons, beginsWith, beginsWith_map f as bs h2]

theorem hasSubstr_map (f : Char → Char) : ∀ (n h : List Char), hasSubstr n h = true →
    hasSubstr (n.map f) (h.map f) = true
  | n, [], hh => by
    cases n with
    | nil => exact hasSubstr_nil_needle []
    | cons a as => simp [hasSubstr, beginsWith] at hh
  | n, c :: cs, hh => by
    simp only [hasSubstr, Bool.or_eq_true] at hh
    rcases hh with h1 | h2
    · have hb := beginsWith_map f n (c :: cs) h1
      simp only [List.map_cons] at hb ⊢
      simp [hasSubstr, hb]
    · have hs := hasSubstr_map f n cs h2
      simp [List.map_cons, hasSubstr, hs]

/-- Lowering the haystack preserves containment of an already-lowercase needle. -/
theorem strContains_pyLower (text k : String) (hmap : k.data.map Char.toLower = k.data)
    (h : strContains text k = true) : strContains (pyLower text) k = true := by
  have hm := hasSubstr_map Char.toLower k.data text.data h
  rw [hmap] at hm
  exact hm

/-- Any text containing both scam keywords and more than three exclamation
marks produces at least three fraud indicators. -/
theorem detect_fraud_patterns_length_ge (text : String)
    (h1 : strContains (pyLower text) "free money" = true)
    (h2 : strContains (pyLower text) "act now" = true)
    (h3 : text.data.count '!' > 3) :
    3 ≤ (detect_fraud_patterns text).length := by
  have hsub : List.Sublist ["free money", "act now"] fraud_keywords := by decide
  have hcnt2 : List.countP (fun k : String => strContains (pyLower text) k)
      ["free money", "act now"] = 2 := by
    simp [List.countP_cons, h1, h2]
  have hcnt : 2 ≤ List.countP (fun k : String => strContains (pyLower text) k) fraud_keywords := by
    rw [← hcnt2]
    exact hsub.countP_le _
  have hfil : 2 ≤ (fraud_keywords.filter
      (fun k : String => strContains (pyLower text) k)).length := by
    rw [show (fraud_keywords.filter (fun k : String => strContains (pyLower text) k)).length =
      fraud_keywords.countP (fun k : String => strContains (pyLower text) k) from by
        simp [List.countP_eq_length_filter]]
    exact hcnt
  have key : detect_fraud_patterns text =
      (((fraud_keywords.filter (fun k => strContains (pyLower text) k)).map
        (fun k => "Suspicious keyword: " ++ k)) ++
       (if 0 < text.data.length ∧
          (text.data.countP Char.isUpper : ℚ) / (text.data.length : ℚ) > 0.3 then
        ["Excessive use of capital letters"] else [])) ++
      (if text.data.count '!' > 3 then ["Excessive exclamation marks"] else []) := rfl
  rw [key, if_pos h3]
  simp only [List.length_append, List.length_map, List.length_cons, List.length_nil]
  omega

/-- C7: For every extracted on-screen text, the fraud score equals
`min(0.2 * indicator_count, 1.0)`; for any text containing the substrings
`"free money"` and `"act now"` together with more than 3 `'!'` characters,
at least 3 indicators are produced and the fraud score is at least 0.6. -/
theorem claim_C7_fraud_score_formula :
    (∀ text : String, fraud_score_of (detect_fraud_patterns text) =
      min (0.2 * ((detect_fraud_patterns text).length : ℚ)) 1) ∧
    (∀ src : VideoSource, (analyze_fraud src).score =
      min (0.2 * ((analyze_fraud src).indicators.length : ℚ)) 1) ∧
    (∀ text : String,
      strContains text "free money" = true → strContains text "act now" = true →
      text.data.count '!' > 3 →
      3 ≤ (detect_fraud_patterns text).length ∧
      (0.6 : ℚ) ≤ fraud_score_of (detect_fraud_patterns text)) := by
  refine ⟨?_, ?_, ?_⟩
  · intro text
    unfold fraud_score_of
    rw [mul_comm]
  · intro src
    show fraud_score_of (detect_fraud_patterns (extract_text_from_video src)) =
      min (0.2 * ((detect_fraud_patterns (extract_text_from_video src)).length : ℚ)) 1
    unfold fraud_score_of
    rw [mul_comm]
  · intro text h1 h2 h3
    have hl1 : strContains (pyLower text) "free money" = true :=
      strContains_pyLower text _ (by decide) h1
    have hl2 : strContains (pyLower text) "act now" = true :=
      strContains_pyLower text _ (by decide) h2
    have hlen := detect_fraud_patterns_length_ge text hl1 hl2 h3
    refine ⟨hlen, ?_⟩
    unfold fraud_score_of
    have hc : (3 : ℚ) ≤ ((detect_fraud_patterns text).length : ℚ) := by exact_mod_cast hlen
    exact le_min (by linarith) (by norm_num)

/-- Witness for C7 at a concrete input: `"free money!!!! act now"` yields at
least three indicators and a fraud score of at least 0.6. -/
theorem claim_C7_fraud_score_formula_witness :
    3 ≤ (detect_fraud_patterns sample_fraud_text).length ∧
    (0.6 : ℚ) ≤ fraud_score_of (detect_fraud_patterns sample_fraud_text) :=
  claim_C7_fraud_score_formula.2.2 sample_fraud_text (by decide) (by decide) (by decide)

/-! ## Sampling and folding lemmas for the analyzer -/

theorem pyRange_zero (s : ℕ) (hs : 1 ≤ s) : pyRange 0 s = [] := by
  unfold pyRange
  rw [Nat.div_eq_of_lt (by omega)]
  rfl

theorem zero_mem_pyRange (total s : ℕ) (ht : 1 ≤ total) (hs : 1 ≤ s) :
    0 ∈ pyRange total s := by
  unfold pyRange
  refine List.mem_map.mpr ⟨0, ?_, Nat.zero_mul s⟩
  rw [List.mem_range]
  have h1 : 1 ≤ (total + s - 1) / s := (Nat.le_div_iff_mul_le hs).mpr (by omega)
  omega

theorem foldl_max_init_le {α : Type*} (g : α → ℚ) :
    ∀ (l : List α) (a : ℚ), a ≤ l.foldl (fun m x => max m (g x)) a
  | [], a => le_refl a
  | x :: xs, a => le_trans (le_max_left a (g x)) (foldl_max_init_le g xs _)

theorem le_foldl_max {α : Type*} (g : α → ℚ) :
    ∀ (l : List α) (a : ℚ) (x : α), x ∈ l → g x ≤ l.foldl (fun m x => max m (g x)) a
  | [], _, _, hx => absurd hx (List.not_mem_nil _)
  | y :: ys, a, x, hx => by
    rcases List.mem_cons.mp hx with h | h
    · subst h
      exact le_trans (le_max_right a (g x)) (foldl_max_init_le g ys _)
    · exact le_foldl_max g ys (max a (g y)) x h

/-- A frame whose skin-band fraction exceeds 60% scores exactly 1. -/
theorem detect_skin_content_eq_one (f : Frame) (hf : skin_percentage f > 3/5) :
    detect_skin_content f = 1 := by
  show min (min (skin_percentage f * 2) 1 + min ((f.largeSkinRegions : ℚ) * 0.1) 0.3) 1 = 1
  have hbase : min (skin_percentage f * 2) 1 = 1 := min_eq_right (by linarith)
  have hb : (0 : ℚ) ≤ min ((f.largeSkinRegions : ℚ) * 0.1) 0.3 :=
    le_min (by positivity) (by norm_num)
  rw [hbase]
  exact min_eq_right (by linarith)

theorem analyze_visual_copyright_score_nonneg (src : VideoSource) :
    0 ≤ (analyze_visual_copyright src).score := by
  show (0 : ℚ) ≤ min
    (((((visualIndices src).filterMap (capRead src)).countP detect_logos_watermarks : ℕ) : ℚ) /
      ((max (visualIndices src).length 1 : ℕ) : ℚ) * 2) 1
  exact le_min (by positivity) (by norm_num)

/-- C8: For every video with no audio track, the copyright audio sub-score
is 0.0 with reason "no audio track" (the source capitalizes it as
"No audio track"), and the overall copyright score — `max(audio, visual)`
for all inputs — then equals the visual sub-score alone. -/
theorem claim_C8_copyright_no_audio (src : VideoSource)
    (hopen : src.opened = true) (hna : src.audio = none) :
    (analyze_copyright src).audio_analysis.score = 0 ∧
    (analyze_copyright src).audio_analysis.reason = some "No audio track" ∧
    pyLower "No audio track" = "no audio track" ∧
    (∀ s : VideoSource, (analyze_copyright s).overall_score =
      max (analyze_copyright s).audio_analysis.score
        (analyze_copyright s).visual_analysis.score) ∧
    (analyze_copyright src).overall_score = (analyze_copyright src).visual_analysis.score := by
  have haudio : analyze_audio_copyright src = { score := 0, reason := some "No audio track" } := by
    simp [analyze_audio_copyright, hopen, hna]
  refine ⟨?_, ?_, by decide, fun s => rfl, ?_⟩
  · show (analyze_audio_copyright src).score = 0
    rw [haudio]
  · show (analyze_audio_copyright src).reason = some "No audio track"
    rw [haudio]
  · show max (analyze_audio_copyright src).score (analyze_visual_copyright src).score =
      (analyze_visual_copyright src).score
    rw [haudio]
    exact max_eq_right (analyze_visual_copyright_score_nonneg src)

/-- Witness for C8 at a concrete input: a silent one-frame video. -/
theorem claim_C8_copyright_no_audio_witness :
    (analyze_copyright silent_video).audio_analysis.score = 0 ∧
    (analyze_copyright silent_video).audio_analysis.reason = some "No audio track" ∧
    (analyze_copyright silent_video).overall_score =
      (analyze_copyright silent_video).visual_analysis.score := by
  have h := claim_C8_copyright_no_audio silent_video rfl rfl
  exact ⟨h.1, h.2.1, h.2.2.2.2⟩

/-! ## The end-to-end nudity rejection (C9) -/

/-- A readable non-empty video always samples its first frame. -/
theorem head_mem_nuditySampled (src : VideoSource) (hopen : src.opened = true)
    (hne : src.frames ≠ []) : ∃ f0 : Frame, (0, f0) ∈ nuditySampled src := by
  cases hf : src.frames with
  | nil => exact absurd hf hne
  | cons f0 rest =>
    refine ⟨f0, ?_⟩
    unfold nuditySampled
    apply List.mem_filterMap.mpr
    refine ⟨0, ?_, ?_⟩
    · unfold nudityIndices
      apply zero_mem_pyRange
      · simp [capFrameCount, hopen, hf]
      · exact le_max_left 1 _
    · simp [capRead, hopen, hf]

/-- The join of a list of strings contains each member contiguously. -/
theorem pyJoin_data_of_mem (sep : String) : ∀ (parts : List String) (s : String), s ∈ parts →
    ∃ aL bL : List Char, (pyJoin sep parts).data = aL ++ (s.data ++ bL)
  | [], s, hx => absurd hx (List.not_mem_nil s)
  | [x], s, hx => by
    have hsx : s = x := by simpa using hx
    subst hsx
    exact ⟨[], [], by simp [pyJoin]⟩
  | x :: y :: r, s, hx => by
    rcases List.mem_cons.mp hx with h | h
    · subst h
      exact ⟨[], (sep ++ pyJoin sep (y :: r)).data, by
        simp [pyJoin, str_data_append, List.append_assoc]⟩
    · obtain ⟨aL, bL, hab⟩ := pyJoin_data_of_mem sep (y :: r) s h
      refine ⟨x.data ++ sep.data ++ aL, bL, ?_⟩
      show (x ++ sep ++ pyJoin sep (y :: r)).data = _
      rw [str_data_append, str_data_append, hab]
      simp [List.append_assoc]

/-- If a string's character data contains a piece whose lowering is the
needle, the lowered string contains the needle. -/
theorem strContains_pyLower_of_piece (s : String) (pre mid post : List Char) (needle : String)
    (hdata : s.data = pre ++ (mid ++ post))
    (hmid : mid.map Char.toLower = needle.data) :
    strContains (pyLower s) needle = true := by
  show hasSubstr needle.data (s.data.map Char.toLower) = true
  rw [hdata]
  simp only [List.map_append, hmid]
  exact hasSubstr_append_left _ _ (hasSubstr_self_append _ _) _

/-- C9: For every video whose sampled frames each contain more than 60%
pixels inside the skin-tone HSV band, moderating with
`nudity_sensitivity = "strict"` (threshold 0.4) yields
`decision = "rejected"`, a violation of type nudity in the violations list,
and a reasoning string containing "nudity detected" (the source capitalizes
the message; containment is over the lowered reasoning). -/
theorem claim_C9_skin_video_rejected (src : VideoSource) (config : ModerationConfig)
    (hcfg : config.nudity_sensitivity = "strict")
    (hopen : src.opened = true) (hne : src.frames ≠ [])
    (hskin : ∀ nf ∈ nuditySampled src, skin_percentage nf.2 > 3/5) :
    (moderate_video src config).decision = "rejected" ∧
    (∃ v ∈ (moderate_video src config).violations, v.vtype = "nudity") ∧
    strContains (pyLower (moderate_video src config).reasoning) "nudity detected" = true := by
  obtain ⟨f0, hmem⟩ := head_mem_nuditySampled src hopen hne
  have hscore1 : detect_skin_content f0 = 1 :=
    detect_skin_content_eq_one f0 (hskin (0, f0) hmem)
  have hfold := le_foldl_max (fun nf : ℕ × Frame => detect_skin_content nf.2)
    (nuditySampled src) 0 (0, f0) hmem
  have hov : (1 : ℚ) ≤ (analyze_nudity src config).overall_score := by
    refine le_trans (le_of_eq hscore1.symm) ?_
    exact hfold
  have herr : ((analyze_video src config).nudity_analysis).error = none := rfl
  have hsge : ((analyze_video src config).nudity_analysis).overall_score ≥
      sensitivityThresholds config.nudity_sensitivity := by
    rw [hcfg, sensitivityThresholds_strict]
    show (0.4 : ℚ) ≤ (analyze_nudity src config).overall_score
    linarith
  have hviol : (check_nudity_violation (analyze_video src config).nudity_analysis
      config).violation = true :=
    (check_nudity_violation_iff _ _).mpr ⟨herr, hsge⟩
  have hmemviol : check_nudity_violation (analyze_video src config).nudity_analysis config ∈
      decision_violations (analyze_video src config) config := by
    unfold decision_violations
    rw [if_pos hviol]
    simp
  have hvne : decision_violations (analyze_video src config) config ≠ [] := by
    intro h0
    rw [h0] at hmemviol
    exact List.not_mem_nil _ hmemviol
  obtain ⟨hvt, -, -, hex⟩ :=
    check_nudity_violation_spec ((analyze_video src config).nudity_analysis) config herr hsge
  obtain ⟨rest2, hreason⟩ := hex
  refine ⟨?_, ?_, ?_⟩
  · show (make_moderation_decision (analyze_video src config) config).decision = "rejected"
    rw [make_moderation_decision_decision, if_neg hvne]
  · exact ⟨check_nudity_violation (analyze_video src config).nudity_analysis config,
      hmemviol, hvt⟩
  · have hpartmem : (check_nudity_violation (analyze_video src config).nudity_analysis
        config).reason ∈
        (decision_violations (analyze_video src config) config).map CheckResult.reason :=
      List.mem_map.mpr ⟨_, hmemviol, rfl⟩
    obtain ⟨aL, bL, hjoin⟩ := pyJoin_data_of_mem "; " _ _ hpartmem
    have hreasoning : (moderate_video src config).reasoning =
        "Video rejected due to: " ++ pyJoin "; "
          ((decision_violations (analyze_video src config) config).map CheckResult.reason) := by
      show (make_moderation_decision (analyze_video src config) config).reasoning = _
      rw [make_moderation_decision_reasoning, if_neg hvne]
    apply strContains_pyLower_of_piece _
      (("Video rejected due to: " : String).data ++ aL)
      (("Nudity detected" : String).data) (rest2 ++ bL) _ ?_ (by decide)
    rw [hreasoning, str_data_append, hjoin, hreason]
    simp [List.append_assoc]

/-- Witness for C9 at a concrete input: a one-frame 70%-skin video under the
strict configuration. -/
theorem claim_C9_skin_video_rejected_witness :
    (moderate_video skin_video strict_config).decision = "rejected" ∧
    (∃ v ∈ (moderate_video skin_video strict_config).violations, v.vtype = "nudity") ∧
    strContains (pyLower (moderate_video skin_video strict_config).reasoning)
      "nudity detected" = true := by
  apply claim_C9_skin_video_rejected skin_video strict_config rfl rfl
  · simp [skin_video]
  · intro nf hmem
    have hs : nuditySampled skin_video = [(0, skin_frame)] := rfl
    rw [hs] at hmem
    rw [List.mem_singleton] at hmem
    subst hmem
    show skin_percentage skin_frame > 3/5
    norm_num [skin_percentage, skin_frame, skin_pixel, blue_pixel, isSkinPixel,
      List.replicate, List.countP_cons]

/-! ## Lemmas about text extraction and unreadable sources -/

theorem sensitivityThresholds_ge (s : String) : (0.4 : ℚ) ≤ sensitivityThresholds s := by
  by_cases h1 : s = "lenient"
  · rw [h1, sensitivityThresholds_lenient]
    norm_num
  · by_cases h2 : s = "moderate"
    · rw [h2, sensitivityThresholds_moderate]
      norm_num
    · by_cases h3 : s = "strict"
      · rw [h3, sensitivityThresholds_strict]
      · rw [show sensitivityThresholds s = 0.6 from by
          unfold sensitivityThresholds
          rw [if_neg h1, if_neg h2, if_neg h3]]
        norm_num

theorem extract_text_fold_data : ∀ (l : List Frame) (acc : String),
    (l.foldl (fun acc f => acc ++ " " ++ pyJoin " " (detect_text_regions f)) acc).data =
      acc.data ++ List.replicate l.length ' '
  | [], acc => by simp
  | f :: fs, acc => by
    rw [List.foldl_cons,
      extract_text_fold_data fs (acc ++ " " ++ pyJoin " " (detect_text_regions f))]
    simp [detect_text_regions, pyJoin, str_data_append, List.replicate,
      show (" " : String).data = [' '] from rfl, show ("" : String).data = [] from rfl]

theorem dropWhile_space_replicate : ∀ n : ℕ,
    List.dropWhile pyIsSpace (List.replicate n ' ') = []
  | 0 => rfl
  | n + 1 => by
    simp [List.replicate, List.dropWhile, pyIsSpace, dropWhile_space_replicate n]

/-- With the stubbed text-region detector, extraction always yields the
empty string (the per-frame separators are stripped away). -/
theorem extract_text_from_video_empty (src : VideoSource) :
    extract_text_from_video src = "" := by
  simp only [extract_text_from_video, pyStrip]
  rw [extract_text_fold_data, show ("" : String).data = [] from rfl, List.nil_append,
    dropWhile_space_replicate, List.reverse_nil, List.dropWhile_nil, List.reverse_nil]

theorem analyze_fraud_score_zero (src : VideoSource) : (analyze_fraud src).score = 0 := by
  show fraud_score_of (detect_fraud_patterns (extract_text_from_video src)) = 0
  rw [extract_text_from_video_empty, show detect_fraud_patterns "" = [] from rfl]
  norm_num [fraud_score_of]

theorem capFrameCount_unopened (src : VideoSource) (h : src.opened = false) :
    capFrameCount src = 0 := by
  simp [capFrameCount, h]

theorem nudityIndices_unopened (src : VideoSource) (h : src.opened = false) :
    nudityIndices src = [] := by
  unfold nudityIndices
  rw [capFrameCount_unopened src h]
  exact pyRange_zero _ (le_max_left 1 _)

theorem nuditySampled_unopened (src : VideoSource) (h : src.opened = false) :
    nuditySampled src = [] := by
  unfold nuditySampled
  rw [nudityIndices_unopened src h]
  rfl

theorem analyze_nudity_unopened (src : VideoSource) (c : ModerationConfig)
    (h : src.opened = false) :
    analyze_nudity src c =
      { error := none, overall_score := 0, category := "none", detections := [],
        frames_analyzed := 0, sensitivity_level := c.nudity_sensitivity } := by
  norm_num [analyze_nudity, nuditySampled_unopened src h, nudityIndices_unopened src h,
    categorize_nudity]

theorem techIndices_unopened (src : VideoSource) (h : src.opened = false) :
    techIndices src = [] := by
  simp [techIndices, capFrameCount_unopened src h]

theorem analyze_technical_unopened (src : VideoSource) (h : src.opened = false) :
    analyze_technical_quality src =
      { error := none, blur_score := 0, brightness_score := 0, quality_rating := "poor",
        is_blurry := true, is_too_dark := true, is_too_bright := false } := by
  norm_num [analyze_technical_quality, techIndices_unopened src h, rate_quality,
    decide_eq_true_eq]

theorem visualIndices_unopened (src : VideoSource) (h : src.opened = false) :
    visualIndices src = [] := by
  unfold visualIndices
  rw [capFrameCount_unopened src h]
  exact pyRange_zero _ (le_max_left 1 _)

theorem analyze_copyright_unopened (src : VideoSource) (h : src.opened = false) :
    (analyze_copyright src).audio_analysis =
      { score := 0, error := some "could not open source" } ∧
    (analyze_copyright src).visual_analysis.score = 0 ∧
    (analyze_copyright src).overall_score = 0 := by
  have haudio : analyze_audio_copyright src =
      { score := 0, error := some "could not open source" } := by
    simp [analyze_audio_copyright, h]
  have hvis : (analyze_visual_copyright src).score = 0 := by
    norm_num [analyze_visual_copyright, visualIndices_unopened src h]
  refine ⟨haudio, hvis, ?_⟩
  show max (analyze_audio_copyright src).score (analyze_visual_copyright src).score = 0
  rw [haudio, hvis]
  norm_num

/-- For an unreadable source the technical check fires (blurry and too dark),
whatever the configuration. -/
theorem technical_check_fires_unopened (src : VideoSource) (c : ModerationConfig)
    (h : src.opened = false) :
    (check_technical_violations (analyze_video src c).technical_analysis c).violation = true := by
  rw [check_technical_violations_iff]
  constructor
  · show (analyze_technical_quality src).error = none
    rw [analyze_technical_unopened src h]
  · left
    show (analyze_technical_quality src).is_blurry = true
    rw [analyze_technical_unopened src h]

/-- For an unreadable source the technical check result is among the emitted
violations, whatever the configuration. -/
theorem technical_mem_violations_unopened (src : VideoSource) (c : ModerationConfig)
    (h : src.opened = false) :
    check_technical_violations (analyze_video src c).technical_analysis c ∈
      decision_violations (analyze_video src c) c := by
  unfold decision_violations
  rw [if_pos (technical_check_fires_unopened src c h)]
  exact List.mem_append_right _ (List.mem_singleton_self _)

/-- C10: With the text-extraction capability as wired (the text-region
detector returns no text for every frame), the extracted on-screen text is
always empty, every video's fraud score is 0.0, and no decision produced by
`moderate_video` ever contains a violation of type fraud. -/
theorem claim_C10_fraud_branch_unreachable :
    (∀ f : Frame, detect_text_regions f = []) ∧
    (∀ src : VideoSource, extract_text_from_video src = "") ∧
    (∀ src : VideoSource, (analyze_fraud src).score = 0) ∧
    (∀ (src : VideoSource) (config : ModerationConfig),
      ∀ v ∈ (moderate_video src config).violations, v.vtype ≠ "fraud") := by
  refine ⟨fun f => rfl, extract_text_from_video_empty, analyze_fraud_score_zero, ?_⟩
  intro src config v hv ht
  have hfired := fraud_member_fired (analyze_video src config) config v hv ht
  obtain ⟨-, hs⟩ := (check_fraud_violation_iff _ _).mp hfired
  have h0 : ((analyze_video src config).fraud_analysis).score = 0 :=
    analyze_fraud_score_zero src
  rw [h0] at hs
  have hge := sensitivityThresholds_ge config.fraud_sensitivity
  linarith

/-- Witness for C10 at a concrete input: the unreadable source is rejected
for technical quality, and that emitted violation is not of type fraud. -/
theorem claim_C10_fraud_branch_unreachable_witness :
    extract_text_from_video unreadable_source = "" ∧
    (analyze_fraud unreadable_source).score = 0 ∧
    (check_technical_violations (analyze_video unreadable_source
        default_moderation_config).technical_analysis
      default_moderation_config).vtype ≠ "fraud" := by
  have h := claim_C10_fraud_branch_unreachable
  refine ⟨h.2.1 unreadable_source, h.2.2.1 unreadable_source, ?_⟩
  exact h.2.2.2 unreadable_source default_moderation_config _
    (technical_mem_violations_unopened unreadable_source default_moderation_config rfl)

/-- C6 counterexample: for the concrete unreadable source, the nudity
extractor's result carries no error and reports an ordinary numeric score of
0.0 (and the fraud extractor likewise carries no error), contradicting the
claim that every extractor's SignalResult carries a SourceUnreadable-style
error with its score absent. -/
theorem claim_C6_counterexample :
    (analyze_video unreadable_source default_moderation_config).nudity_analysis.error = none ∧
    (analyze_video unreadable_source
      default_moderation_config).nudity_analysis.error.isSome = false ∧
    (analyze_video unreadable_source
      default_moderation_config).nudity_analysis.overall_score = 0 ∧
    (analyze_video unreadable_source default_moderation_config).fraud_analysis.error = none := by
  refine ⟨rfl, rfl, ?_, rfl⟩
  show (analyze_nudity unreadable_source default_moderation_config).overall_score = 0
  rw [analyze_nudity_unopened unreadable_source default_moderation_config rfl]

/-- C6 (amended): For every video source that cannot be opened, the
moviepy-based audio sub-analysis records an error, while the frame-based
extractors return ordinary zero scores with no per-extractor error (nudity
0.0 / "none", copyright overall 0.0, fraud 0.0); the technical analysis
reports blurry/too-dark with quality "poor", and the caller still receives
a complete decision — rejected, due to the technical violation. -/
theorem claim_C6_unreadable_source (src : VideoSource) (config : ModerationConfig)
    (h : src.opened = false) :
    (analyze_video src config).nudity_analysis =
      { error := none, overall_score := 0, category := "none", detections := [],
        frames_analyzed := 0, sensitivity_level := config.nudity_sensitivity } ∧
    (analyze_video src config).fraud_analysis.error = none ∧
    (analyze_video src config).fraud_analysis.score = 0 ∧
    (analyze_video src config).copyright_analysis.error = none ∧
    (analyze_video src config).copyright_analysis.audio_analysis.error.isSome = true ∧
    (analyze_video src config).copyright_analysis.overall_score = 0 ∧
    (analyze_video src config).technical_analysis.is_blurry = true ∧
    (analyze_video src config).technical_analysis.is_too_dark = true ∧
    (analyze_video src config).technical_analysis.quality_rating = "poor" ∧
    (moderate_video src config).decision = "rejected" := by
  obtain ⟨hca, -, hco⟩ := analyze_copyright_unopened src h
  refine ⟨analyze_nudity_unopened src config h, rfl, analyze_fraud_score_zero src, rfl,
    ?_, hco, ?_, ?_, ?_, ?_⟩
  · show (analyze_copyright src).audio_analysis.error.isSome = true
    rw [hca]
    rfl
  · show (analyze_technical_quality src).is_blurry = true
    rw [analyze_technical_unopened src h]
  · show (analyze_technical_quality src).is_too_dark = true
    rw [analyze_technical_unopened src h]
  · show (analyze_technical_quality src).quality_rating = "poor"
    rw [analyze_technical_unopened src h]
  · have hmem := technical_mem_violations_unopened src config h
    have hvne : decision_violations (analyze_video src config) config ≠ [] := by
      intro h0
      rw [h0] at hmem
      exact List.not_mem_nil _ hmem
    show (make_moderation_decision (analyze_video src config) config).decision = "rejected"
    rw [make_moderation_decision_decision, if_neg hvne]

/-- Witness for the amended C6 at a concrete input. -/
theorem claim_C6_unreadable_source_witness :
    (moderate_video unreadable_source default_moderation_config).decision = "rejected" ∧
    (analyze_video unreadable_source
      default_moderation_config).copyright_analysis.audio_analysis.error.isSome = true := by
  have h := claim_C6_unreadable_source unreadable_source default_moderation_config rfl
  exact ⟨h.2.2.2.2.2.2.2.2.2, h.2.2.2.2.1⟩

end PyModeration
